import Mathlib

/-!
Verification development for the erad2022 repository (ERAD 2022 open radar
science short course).

The repository consists of a Jupyter-Book table of contents and teaching
notebooks; the only substantial code file present is the wradlib data-quality
notebook (src/notebooks/wradlib/wradlib_data_quality.ipynb) together with the
book's table of contents (src/unnamed/part_000, a jb-book `_toc.yml`).

We give a shallow embedding of
  - the table of contents as a static tree of parts, chapters and sections;
  - the Python code cells of the wradlib data-quality notebook as an abstract
    syntax tree (faithful statement-by-statement transcription);
  - the data pipeline fragments the claims are about (RadarVolume
    extend/sort, xarray apply_ufunc dimension handling, and the final
    Dataset.where quality mask), as executable functions.
-/

/-! ## Python expression and statement syntax

A small Python AST, sufficient to transcribe every code cell of the
wradlib data-quality notebook verbatim.  Constructors that the notebook
never uses (tryExcept, raiseStmt, whileLoop, forLoop, withBlock, classDef)
are included so that their absence is an expressible property.
-/

inductive PyExpr where
  | pid (x : String)
  | attr (e : PyExpr) (f : String)
  | str (s : String)
  | fstr (s : String)
  | num (s : String)
  | boolL (b : Bool)
  | noneL
  | ellipsisL
  | call (f : PyExpr) (args : List PyExpr) (kw : List (String × PyExpr))
  | sub (e : PyExpr) (i : PyExpr)
  | sliceE (lo hi : Option PyExpr)
  | tup (xs : List PyExpr)
  | lst (xs : List PyExpr)
  | dict (xs : List (PyExpr × PyExpr))
  | binop (op : String) (a b : PyExpr)
  | unop (op : String) (a : PyExpr)
  | lam (ps : List String) (b : PyExpr)
  | listComp (elt : PyExpr) (x : String) (iter : PyExpr)
deriving Repr

inductive PyStmt where
  | imp (m : String) (als : Option String)
  | impFrom (m : String) (names : List String)
  | asg (tgt : PyExpr) (v : PyExpr)
  | tupAsg (tgts : List PyExpr) (v : PyExpr)
  | expr (e : PyExpr)
  | funcDef (n : String) (ps : List (String × Option PyExpr)) (b : List PyStmt)
  | ret (e : PyExpr)
  | ifStmt (c : PyExpr) (t e : List PyStmt)
  | forLoop (x : String) (it : PyExpr) (b : List PyStmt)
  | whileLoop (c : PyExpr) (b : List PyStmt)
  | tryExcept (b : List PyStmt) (handlers : List (List PyStmt)) (final : List PyStmt)
  | raiseStmt (e : Option PyExpr)
  | withBlock (e : PyExpr) (b : List PyStmt)
  | classDef (n : String) (b : List PyStmt)
deriving Repr

/-! ### Syntax traversals -/

mutual

/-- All subexpressions of an expression, the expression itself included. -/
def exprSubs : PyExpr → List PyExpr
  | .pid x => [.pid x]
  | .attr e f => .attr e f :: exprSubs e
  | .str s => [.str s]
  | .fstr s => [.fstr s]
  | .num s => [.num s]
  | .boolL b => [.boolL b]
  | .noneL => [.noneL]
  | .ellipsisL => [.ellipsisL]
  | .call f a k => .call f a k :: (exprSubs f ++ exprsSubs a ++ kwSubs k)
  | .sub e i => .sub e i :: (exprSubs e ++ exprSubs i)
  | .sliceE lo hi => .sliceE lo hi :: (optSubs lo ++ optSubs hi)
  | .tup xs => .tup xs :: exprsSubs xs
  | .lst xs => .lst xs :: exprsSubs xs
  | .dict xs => .dict xs :: pairsSubs xs
  | .binop op a b => .binop op a b :: (exprSubs a ++ exprSubs b)
  | .unop op a => .unop op a :: exprSubs a
  | .lam ps b => .lam ps b :: exprSubs b
  | .listComp elt x it => .listComp elt x it :: (exprSubs elt ++ exprSubs it)

def exprsSubs : List PyExpr → List PyExpr
  | [] => []
  | e :: es => exprSubs e ++ exprsSubs es

def kwSubs : List (String × PyExpr) → List PyExpr
  | [] => []
  | (_, e) :: ks => exprSubs e ++ kwSubs ks

def pairsSubs : List (PyExpr × PyExpr) → List PyExpr
  | [] => []
  | (a, b) :: ks => exprSubs a ++ exprSubs b ++ pairsSubs ks

def optSubs : Option PyExpr → List PyExpr
  | none => []
  | some e => exprSubs e

end

mutual

/-- All statements of a statement, nested bodies included, itself included. -/
def stmtAll : PyStmt → List PyStmt
  | .funcDef n ps b => .funcDef n ps b :: stmtsAll b
  | .ifStmt c t e => .ifStmt c t e :: (stmtsAll t ++ stmtsAll e)
  | .forLoop x it b => .forLoop x it b :: stmtsAll b
  | .whileLoop c b => .whileLoop c b :: stmtsAll b
  | .tryExcept b hs f =>
      .tryExcept b hs f :: (stmtsAll b ++ stmtssAll hs ++ stmtsAll f)
  | .withBlock e b => .withBlock e b :: stmtsAll b
  | .classDef n b => .classDef n b :: stmtsAll b
  | s => [s]

def stmtsAll : List PyStmt → List PyStmt
  | [] => []
  | s :: ss => stmtAll s ++ stmtsAll ss

def stmtssAll : List (List PyStmt) → List PyStmt
  | [] => []
  | b :: bs => stmtsAll b ++ stmtssAll bs

end

/-- The expressions a statement mentions directly (not those of nested
statements, which `stmtsAll` reaches separately). -/
def stmtOwnExprs : PyStmt → List PyExpr
  | .imp _ _ => []
  | .impFrom _ _ => []
  | .asg t v => [t, v]
  | .tupAsg ts v => ts ++ [v]
  | .expr e => [e]
  | .funcDef _ ps _ => ps.filterMap Prod.snd
  | .ret e => [e]
  | .ifStmt c _ _ => [c]
  | .forLoop _ it _ => [it]
  | .whileLoop c _ => [c]
  | .tryExcept _ _ _ => []
  | .raiseStmt e => e.toList
  | .withBlock e _ => [e]
  | .classDef _ _ => []

/-- All expressions occurring anywhere in a program. -/
def allExprs (prog : List PyStmt) : List PyExpr :=
  ((stmtsAll prog).flatMap stmtOwnExprs).flatMap exprSubs

/-- A dotted name such as `wrl.clutter.filter_gabella`, when the expression
is a plain identifier/attribute chain. -/
def dottedName : PyExpr → Option String
  | .pid x => some x
  | .attr e f => (dottedName e).map (fun p => p ++ "." ++ f)
  | _ => none

/-- Names of all called functions/methods in a program (dotted form). -/
def callNames (prog : List PyStmt) : List String :=
  (allExprs prog).filterMap fun e =>
    match e with
    | .call f _ _ => dottedName f
    | _ => none

/-- All string literals occurring in a program. -/
def strLits (prog : List PyStmt) : List String :=
  (allExprs prog).filterMap fun e =>
    match e with
    | .str s => some s
    | _ => none

/-- All top-level function definitions of a program: name, params, body. -/
def funcDefs (prog : List PyStmt) : List (String × List (String × Option PyExpr) × List PyStmt) :=
  (stmtsAll prog).filterMap fun s =>
    match s with
    | .funcDef n ps b => some (n, ps, b)
    | _ => none

/-- Whether a statement is a try/except block. -/
def isTry : PyStmt → Bool
  | .tryExcept _ _ _ => true
  | _ => false

/-- Whether a statement is a raise statement. -/
def isRaise : PyStmt → Bool
  | .raiseStmt _ => true
  | _ => false

/-- Whether a statement is a class definition. -/
def isClassDef : PyStmt → Bool
  | .classDef _ _ => true
  | _ => false

/-- Whether a call is a single attribute/identifier call; returns the final
(method) name, e.g. `astype` for `(xticks / 1000).astype(int)`. -/
def callMethodName : PyExpr → Option String
  | .call (.attr _ m) _ _ => some m
  | .call (.pid m) _ _ => some m
  | _ => none

/-! ## The wradlib data-quality notebook

Statement-by-statement transcription of the code cells of
`src/notebooks/wradlib/wradlib_data_quality.ipynb`, in notebook order.
F-strings are carried as literal text; braces of Python format strings are
written with their character codes.
-/

/-- The glob pattern the notebook uses to discover its radar volume files
(notebook cell "Import Swiss Radar Data"). -/
def fglobLit : String := "../pyart/data/example_pyrad/22179/MLL22179/MLL2217907250U*.nc"

/-- Imports cell. -/
def cell01 : List PyStmt :=
  [.imp "glob" none,
   .imp "os" none,
   .imp "cartopy" none,
   .imp "cartopy.crs" (some "ccrs"),
   .imp "cartopy.feature" (some "cfeature"),
   .imp "matplotlib" (some "mpl"),
   .imp "matplotlib.pyplot" (some "plt"),
   .imp "numpy" (some "np"),
   .imp "xarray" (some "xr"),
   .imp "wradlib" (some "wrl")]

/-- File discovery cell: glob, sort, count. -/
def cell02 : List PyStmt :=
  [.asg (.pid "fglob") (.str fglobLit),
   .asg (.pid "flist") (.call (.attr (.pid "glob") "glob") [.pid "fglob"] []),
   .expr (.call (.attr (.pid "flist") "sort") [] []),
   .expr (.call (.pid "print")
     [.call (.attr (.str "Files available: \x7b\x7d") "format")
       [.call (.pid "len") [.pid "flist"] []] []] [])]

/-- Open every matched file as a sweep dataset. -/
def cell03 : List PyStmt :=
  [.asg (.pid "ds")
    (.listComp
      (.call (.attr (.pid "xr") "open_dataset") [.pid "f"]
        [("group", .str "sweep_1"), ("engine", .str "cfradial1"),
         ("chunks", .dict [])])
      "f" (.pid "flist"))]

/-- Build the RadarVolume and sort it by each sweep's minimum time. -/
def cell04 : List PyStmt :=
  [.asg (.pid "vol")
    (.call (.attr (.attr (.pid "wrl") "io") "RadarVolume") []
      [("engine", .str "cfradial1")]),
   .expr (.call (.attr (.pid "vol") "extend") [.pid "ds"] []),
   .expr (.call (.attr (.pid "vol") "sort") []
     [("key", .lam ["x"] (.call (.attr (.attr (.pid "x") "time") "min") [] []))])]

/-- Display the volume. -/
def cell05 : List PyStmt := [.expr (.call (.pid "display") [.pid "vol"] [])]

/-- Show the volume root. -/
def cell06 : List PyStmt := [.expr (.attr (.pid "vol") "root")]

/-- Select sweep number 3. -/
def cell07 : List PyStmt :=
  [.asg (.pid "sweep_number") (.num "3"),
   .expr (.call (.pid "display") [.sub (.pid "vol") (.pid "sweep_number")] [])]

/-- Definition of extract_clutter: wraps wradlib's Gabella clutter filter in
xarray apply_ufunc. -/
def cell08 : List PyStmt :=
  [.funcDef "extract_clutter"
    [("da", none), ("wsize", some (.num "5")), ("thrsnorain", some (.num "0")),
     ("tr1", some (.num "6.0")), ("n_p", some (.num "6")),
     ("tr2", some (.num "1.3")), ("rm_nans", some (.boolL false))]
    [.ret (.call (.attr (.pid "xr") "apply_ufunc")
      [.attr (.attr (.pid "wrl") "clutter") "filter_gabella", .pid "da"]
      [("input_core_dims", .lst [.lst [.str "azimuth", .str "range"]]),
       ("output_core_dims", .lst [.lst [.str "azimuth", .str "range"]]),
       ("dask", .str "parallelized"),
       ("kwargs", .call (.pid "dict") []
         [("wsize", .pid "wsize"), ("thrsnorain", .pid "thrsnorain"),
          ("tr1", .pid "tr1"), ("n_p", .pid "n_p"), ("tr2", .pid "tr2"),
          ("rm_nans", .pid "rm_nans")])])]]

/-- Apply the Gabella scheme and assign the clutter map to the dataset. -/
def cell09 : List PyStmt :=
  [.asg (.pid "swp") (.sub (.pid "vol") (.pid "sweep_number")),
   .asg (.pid "clmap")
    (.call (.attr (.attr (.pid "swp") "reflectivity_hh_clut") "pipe")
      [.pid "extract_clutter"]
      [("wsize", .num "5"), ("thrsnorain", .num "0.0"), ("tr1", .num "21.0"),
       ("n_p", .num "23"), ("tr2", .num "1.3"), ("rm_nans", .boolL false)]),
   .asg (.pid "swp")
    (.call (.attr (.pid "swp") "assign") [.dict [(.str "CMAP", .pid "clmap")]] []),
   .expr (.call (.pid "display") [.pid "swp"] [])]

/-- Spatial reference setup. -/
def cell10 : List PyStmt :=
  [.impFrom "osgeo" ["osr"],
   .asg (.pid "wgs84") (.call (.attr (.pid "osr") "SpatialReference") [] []),
   .expr (.call (.attr (.pid "wgs84") "ImportFromEPSG") [.num "4326"] [])]

/-- Four-panel reflectivity/clutter plot; georeference the sweep. -/
def cell11 : List PyStmt :=
  [.asg (.pid "fig")
    (.call (.attr (.pid "plt") "figure") [] [("figsize", .tup [.num "15", .num "12"])]),
   .asg (.pid "swpx")
    (.call (.attr
        (.call (.attr (.pid "swp") "sel") []
          [("range", .call (.pid "slice") [.num "0", .num "100000"] [])])
        "pipe")
      [.attr (.attr (.pid "wrl") "georef") "georeference_dataset"]
      [("proj", .pid "wgs84")]),
   .asg (.pid "ax1") (.call (.attr (.pid "fig") "add_subplot") [.num "221"] []),
   .expr (.call (.attr (.attr (.pid "swpx") "reflectivity_hh_clut") "plot") []
     [("x", .str "x"), ("y", .str "y"), ("ax", .pid "ax1"),
      ("vmin", .num "0"), ("vmax", .num "60")]),
   .expr (.call (.attr (.pid "ax1") "set_title") [.str "Reflectivity raw"] []),
   .asg (.pid "ax2") (.call (.attr (.pid "fig") "add_subplot") [.num "222"] []),
   .expr (.call (.attr (.attr (.pid "swpx") "CMAP") "plot") []
     [("x", .str "x"), ("y", .str "y"), ("ax", .pid "ax2")]),
   .expr (.call (.attr (.pid "ax2") "set_title") [.str "Cluttermap"] []),
   .asg (.pid "ax3") (.call (.attr (.pid "fig") "add_subplot") [.num "223"] []),
   .expr (.call (.attr
      (.call (.attr (.attr (.pid "swpx") "reflectivity_hh_clut") "where")
        [.binop "==" (.attr (.pid "swpx") "CMAP") (.num "1")] [])
      "plot") []
     [("x", .str "x"), ("y", .str "y"), ("ax", .pid "ax3"),
      ("vmin", .num "0"), ("vmax", .num "60")]),
   .expr (.call (.attr (.pid "ax3") "set_title") [.str "Clutter"] []),
   .asg (.pid "ax4") (.call (.attr (.pid "fig") "add_subplot") [.num "224"] []),
   .expr (.call (.attr
      (.call (.attr (.attr (.pid "swpx") "reflectivity_hh_clut") "where")
        [.binop "<" (.attr (.pid "swpx") "CMAP") (.num "1")] [])
      "plot") []
     [("x", .str "x"), ("y", .str "y"), ("ax", .pid "ax4"),
      ("vmin", .num "0"), ("vmax", .num "60")]),
   .expr (.call (.attr (.pid "ax4") "set_title") [.str "Reflectivity clutter removed"] [])]

/-- Bounding box of the georeferenced sweep. -/
def cell12 : List PyStmt :=
  [.asg (.pid "extent")
    (.call (.attr (.attr (.pid "wrl") "zonalstats") "get_bbox")
      [.attr (.attr (.pid "swpx") "x") "values",
       .attr (.attr (.pid "swpx") "y") "values"] []),
   .expr (.pid "extent")]

/-- Environment variable configuration and SRTM tile retrieval. -/
def cell13 : List PyStmt :=
  [.asg (.sub (.attr (.pid "os") "environ") (.str "WRADLIB_EARTHDATA_BEARER_TOKEN"))
     (.str ""),
   .asg (.sub (.attr (.pid "os") "environ") (.str "WRADLIB_DATA"))
     (.str "data/wradlib-data"),
   .asg (.pid "dem")
     (.call (.attr (.attr (.pid "wrl") "io") "get_srtm")
       [.call (.attr (.pid "extent") "values") [] []] [])]

/-- Read DEM values and coordinates through GDAL. -/
def cell14 : List PyStmt :=
  [.asg (.pid "elevation")
    (.call (.attr (.attr (.pid "wrl") "georef") "read_gdal_values") [.pid "dem"] []),
   .asg (.pid "coords")
    (.call (.attr (.attr (.pid "wrl") "georef") "read_gdal_coordinates") [.pid "dem"] [])]

/-- Construct the DEM DataArray. -/
def cell15 : List PyStmt :=
  [.asg (.pid "elev")
    (.call (.attr (.pid "xr") "DataArray") []
      [("data", .pid "elevation"),
       ("dims", .lst [.str "y", .str "x"]),
       ("coords", .dict
         [(.str "lat", .tup [.lst [.str "y", .str "x"],
            .sub (.pid "coords") (.tup [.ellipsisL, .num "1"])]),
          (.str "lon", .tup [.lst [.str "y", .str "x"],
            .sub (.pid "coords") (.tup [.ellipsisL, .num "0"])])])]),
   .expr (.pid "elev")]

/-- Plot clutter on the DEM. -/
def cell16 : List PyStmt :=
  [.asg (.pid "fig")
    (.call (.attr (.pid "plt") "figure") [] [("figsize", .tup [.num "13", .num "10"])]),
   .asg (.pid "ax1") (.call (.attr (.pid "fig") "add_subplot") [.num "111"] []),
   .expr (.call (.attr
      (.call (.attr (.attr (.pid "swpx") "CMAP") "where")
        [.binop "==" (.attr (.pid "swpx") "CMAP") (.num "1")] [])
      "plot") []
     [("x", .str "x"), ("y", .str "y"), ("ax", .pid "ax1"),
      ("vmin", .num "0"), ("vmax", .num "1"), ("cmap", .str "turbo"),
      ("add_colorbar", .boolL false)]),
   .expr (.call (.attr (.pid "ax1") "set_title") [.str "Reflectivity corr"] []),
   .expr (.call (.attr (.pid "ax1") "plot")
     [.attr (.attr (.pid "swpx") "longitude") "values",
      .attr (.attr (.pid "swpx") "latitude") "values"]
     [("marker", .str "*"), ("c", .str "r")]),
   .expr (.call (.attr (.pid "elev") "plot") []
     [("x", .str "lon"), ("y", .str "lat"), ("ax", .pid "ax1"),
      ("zorder", .num "-2"), ("cmap", .str "terrain")])]

/-- hvplot imports. -/
def cell17 : List PyStmt := [.imp "hvplot" none, .imp "hvplot.xarray" none]

/-- Interactive hvplot quadmeshes. -/
def cell18 : List PyStmt :=
  [.asg (.pid "cl")
    (.call (.attr (.attr
        (.call (.attr
            (.call (.attr (.attr (.pid "swpx") "CMAP") "where")
              [.binop "==" (.attr (.pid "swpx") "CMAP") (.num "1")] [])
            "chunk") [] [("chunks", .dict [])])
        "hvplot") "quadmesh") []
      [("x", .str "x"), ("y", .str "y"), ("cmap", .str "Reds"),
       ("width", .num "800"), ("height", .num "700"),
       ("clim", .tup [.num "0", .num "1"]), ("alpha", .num "0.6")]),
   .asg (.pid "dm")
    (.call (.attr (.attr (.pid "elev") "hvplot") "quadmesh") []
      [("x", .str "lon"), ("y", .str "lat"), ("cmap", .str "terrain"),
       ("width", .num "800"), ("height", .num "700"),
       ("clim", .tup [.num "0", .num "4000"]), ("rasterize", .boolL true)]),
   .expr (.binop "*" (.pid "dm") (.pid "cl"))]

/-- Site coordinates and beam radius. -/
def cell19 : List PyStmt :=
  [.asg (.pid "sitecoords")
    (.tup [.attr (.attr (.pid "swpx") "longitude") "values",
           .attr (.attr (.pid "swpx") "latitude") "values",
           .attr (.attr (.pid "swpx") "altitude") "values"]),
   .asg (.pid "r") (.attr (.attr (.pid "swpx") "range") "values"),
   .asg (.pid "az") (.attr (.attr (.pid "swpx") "azimuth") "values"),
   .asg (.pid "bw") (.num "0.8"),
   .asg (.pid "beamradius")
    (.call (.attr (.attr (.pid "wrl") "util") "half_power_radius")
      [.pid "r", .pid "bw"] [])]

/-- Raster extraction, clipping and interpolation to the polar grid. -/
def cell20 : List PyStmt :=
  [.tupAsg [.pid "rastervalues", .pid "rastercoords", .pid "proj"]
    (.call (.attr (.attr (.pid "wrl") "georef") "extract_raster_dataset")
      [.pid "dem"] [("nodata", .num "-32768.0")]),
   .asg (.pid "rlimits")
    (.tup [.sub (.pid "extent") (.str "left"),
           .sub (.pid "extent") (.str "bottom"),
           .sub (.pid "extent") (.str "right"),
           .sub (.pid "extent") (.str "top")]),
   .asg (.pid "ind")
    (.call (.attr (.attr (.pid "wrl") "util") "find_bbox_indices")
      [.pid "rastercoords", .pid "rlimits"] []),
   .asg (.pid "rastercoords")
    (.sub (.pid "rastercoords")
      (.tup [.sliceE (some (.sub (.pid "ind") (.num "1")))
               (some (.sub (.pid "ind") (.num "3"))),
             .sliceE (some (.sub (.pid "ind") (.num "0")))
               (some (.sub (.pid "ind") (.num "2"))),
             .ellipsisL])),
   .asg (.pid "rastervalues")
    (.sub (.pid "rastervalues")
      (.tup [.sliceE (some (.sub (.pid "ind") (.num "1")))
               (some (.sub (.pid "ind") (.num "3"))),
             .sliceE (some (.sub (.pid "ind") (.num "0")))
               (some (.sub (.pid "ind") (.num "2")))])),
   .asg (.pid "polcoords")
    (.call (.attr (.pid "np") "dstack")
      [.lst [.attr (.attr (.pid "swpx") "x") "values",
             .attr (.attr (.pid "swpx") "y") "values"]] []),
   .asg (.pid "polarvalues")
    (.call (.attr (.attr (.pid "wrl") "ipol") "cart_to_irregular_spline")
      [.pid "rastercoords", .pid "rastervalues", .pid "polcoords"]
      [("order", .num "3"), ("prefilter", .boolL false)])]

/-- Partial beam blockage. -/
def cell21 : List PyStmt :=
  [.asg (.pid "PBB")
    (.call (.attr (.attr (.pid "wrl") "qual") "beam_block_frac")
      [.pid "polarvalues", .attr (.attr (.pid "swpx") "z") "values",
       .pid "beamradius"] []),
   .asg (.pid "PBB")
    (.call (.attr (.attr (.pid "np") "ma") "masked_invalid") [.pid "PBB"] []),
   .expr (.call (.pid "print") [.attr (.pid "PBB") "shape"] [])]

/-- Cumulative beam blockage. -/
def cell22 : List PyStmt :=
  [.asg (.pid "CBB")
    (.call (.attr (.attr (.pid "wrl") "qual") "cum_beam_block_frac") [.pid "PBB"] []),
   .expr (.call (.pid "print") [.attr (.pid "CBB") "shape"] [])]

/-- Definition of annotate_map: axis styling helper. -/
def cell23 : List PyStmt :=
  [.funcDef "annotate_map"
    [("ax", none), ("cm", some .noneL), ("title", some (.str ""))]
    [.asg (.pid "xticks") (.call (.attr (.pid "ax") "get_xticks") [] []),
     .asg (.pid "ticks")
       (.call (.attr (.binop "/" (.pid "xticks") (.num "1000")) "astype")
         [.pid "int"] []),
     .expr (.call (.attr (.pid "ax") "set_xticks") [.pid "xticks"] []),
     .expr (.call (.attr (.pid "ax") "set_xticklabels") [.pid "ticks"] []),
     .asg (.pid "yticks") (.call (.attr (.pid "ax") "get_yticks") [] []),
     .asg (.pid "ticks")
       (.call (.attr (.binop "/" (.pid "yticks") (.num "1000")) "astype")
         [.pid "int"] []),
     .expr (.call (.attr (.pid "ax") "set_yticks") [.pid "yticks"] []),
     .expr (.call (.attr (.pid "ax") "set_yticklabels") [.pid "ticks"] []),
     .expr (.call (.attr (.pid "ax") "set_xlabel") [.str "Kilometers"] []),
     .expr (.call (.attr (.pid "ax") "set_ylabel") [.str "Kilometers"] []),
     .ifStmt (.unop "not" (.binop "is" (.pid "cm") .noneL))
       [.expr (.call (.attr (.pid "plt") "colorbar") [.pid "cm"] [("ax", .pid "ax")])]
       [],
     .ifStmt (.unop "not" (.binop "==" (.pid "title") (.str "")))
       [.expr (.call (.attr (.pid "ax") "set_title") [.pid "title"] [])]
       [],
     .expr (.call (.attr (.pid "ax") "grid") [] [])]]

/-- Beam blockage overview plot (terrain, CBB, single-ray profile). -/
def cell24 : List PyStmt :=
  [.asg (.pid "alt") (.attr (.attr (.pid "swpx") "z") "values"),
   .asg (.pid "fig")
    (.call (.attr (.pid "plt") "figure") [] [("figsize", .tup [.num "15", .num "12"])]),
   .asg (.pid "ax1")
    (.call (.attr (.pid "plt") "subplot2grid")
      [.tup [.num "2", .num "2"], .tup [.num "0", .num "0"]] []),
   .asg (.pid "ax2")
    (.call (.attr (.pid "plt") "subplot2grid")
      [.tup [.num "2", .num "2"], .tup [.num "0", .num "1"]] []),
   .asg (.pid "ax3")
    (.call (.attr (.pid "plt") "subplot2grid")
      [.tup [.num "2", .num "2"], .tup [.num "1", .num "0"]]
      [("colspan", .num "2"), ("rowspan", .num "1")]),
   .asg (.pid "angle") (.num "270"),
   .tupAsg [.pid "ax1", .pid "dem"]
    (.call (.attr (.attr (.pid "wrl") "vis") "plot_ppi") [.pid "polarvalues"]
      [("ax", .pid "ax1"), ("r", .pid "r"), ("az", .pid "az"),
       ("cmap", .attr (.attr (.pid "mpl") "cm") "terrain"), ("vmin", .num "0.0")]),
   .expr (.call (.attr (.pid "ax1") "plot")
     [.lst [.num "0",
            .binop "*" (.call (.attr (.pid "np") "sin")
              [.call (.attr (.pid "np") "radians") [.pid "angle"] []] [])
              (.num "1e5")],
      .lst [.num "0",
            .binop "*" (.call (.attr (.pid "np") "cos")
              [.call (.attr (.pid "np") "radians") [.pid "angle"] []] [])
              (.num "1e5")],
      .str "r-"] []),
   .expr (.call (.attr (.pid "ax1") "plot")
     [.sub (.pid "sitecoords") (.num "0"), .sub (.pid "sitecoords") (.num "1"),
      .str "ro"] []),
   .expr (.call (.pid "annotate_map")
     [.pid "ax1", .pid "dem",
      .call (.attr (.str "Terrain within \x7b0\x7d km range") "format")
        [.binop "+" (.call (.attr (.pid "np") "max")
           [.binop "/" (.pid "r") (.num "1000.0")] []) (.num "0.1")] []] []),
   .expr (.call (.attr (.pid "ax1") "set_xlim") [.num "-100000", .num "100000"] []),
   .expr (.call (.attr (.pid "ax1") "set_ylim") [.num "-100000", .num "100000"] []),
   .tupAsg [.pid "ax2", .pid "cbb"]
    (.call (.attr (.attr (.pid "wrl") "vis") "plot_ppi") [.pid "CBB"]
      [("ax", .pid "ax2"), ("r", .pid "r"), ("az", .pid "az"),
       ("cmap", .attr (.attr (.pid "mpl") "cm") "PuRd"),
       ("vmin", .num "0"), ("vmax", .num "1")]),
   .expr (.call (.pid "annotate_map")
     [.pid "ax2", .pid "cbb", .str "Beam-Blockage Fraction"] []),
   .expr (.call (.attr (.pid "ax2") "set_xlim") [.num "-100000", .num "100000"] []),
   .expr (.call (.attr (.pid "ax2") "set_ylim") [.num "-100000", .num "100000"] []),
   .tupAsg [.pid "bc"]
    (.call (.attr (.pid "ax3") "plot")
      [.binop "/" (.pid "r") (.num "1000.0"),
       .sub (.pid "alt") (.tup [.pid "angle", .sliceE none none]),
       .str "-b"]
      [("linewidth", .num "3"), ("label", .str "Beam Center")]),
   .tupAsg [.pid "b3db"]
    (.call (.attr (.pid "ax3") "plot")
      [.binop "/" (.pid "r") (.num "1000.0"),
       .binop "+" (.sub (.pid "alt") (.tup [.pid "angle", .sliceE none none]))
         (.pid "beamradius"),
       .str ":b"]
      [("linewidth", .num "1.5"), ("label", .str "3 dB Beam width")]),
   .expr (.call (.attr (.pid "ax3") "plot")
     [.binop "/" (.pid "r") (.num "1000.0"),
      .binop "-" (.sub (.pid "alt") (.tup [.pid "angle", .sliceE none none]))
        (.pid "beamradius"),
      .str ":b"] []),
   .expr (.call (.attr (.pid "ax3") "fill_between")
     [.binop "/" (.pid "r") (.num "1000.0"), .num "0.0",
      .sub (.pid "polarvalues") (.tup [.pid "angle", .sliceE none none])]
     [("color", .str "0.75")]),
   .expr (.call (.attr (.pid "ax3") "set_xlim")
     [.num "0.0",
      .binop "+" (.call (.attr (.pid "np") "max")
        [.binop "/" (.pid "r") (.num "1000.0")] []) (.num "0.1")] []),
   .expr (.call (.attr (.pid "ax3") "set_ylim") [.num "0.0", .num "3000"] []),
   .expr (.call (.attr (.pid "ax3") "set_xlabel") [.str "Range (km)"] []),
   .expr (.call (.attr (.pid "ax3") "set_ylabel") [.str "Altitude (m)"] []),
   .expr (.call (.attr (.pid "ax3") "grid") [] []),
   .asg (.pid "axb") (.call (.attr (.pid "ax3") "twinx") [] []),
   .tupAsg [.pid "bbf"]
    (.call (.attr (.pid "axb") "plot")
      [.binop "/" (.pid "r") (.num "1000.0"),
       .sub (.pid "CBB") (.tup [.pid "angle", .sliceE none none]),
       .str "-g"]
      [("label", .str "BBF")]),
   .expr (.call (.attr (.sub (.attr (.pid "axb") "spines") (.str "right"))
     "set_color") [.str "g"] []),
   .expr (.call (.attr (.pid "axb") "tick_params") []
     [("axis", .str "y"), ("colors", .str "g")]),
   .expr (.call (.attr (.pid "axb") "set_ylabel")
     [.str "Beam-blockage fraction"] [("c", .str "g")]),
   .expr (.call (.attr (.pid "axb") "set_ylim") [.num "0.0", .num "1.0"] []),
   .expr (.call (.attr (.pid "axb") "set_xlim")
     [.num "0.0",
      .binop "+" (.call (.attr (.pid "np") "max")
        [.binop "/" (.pid "r") (.num "1000.0")] []) (.num "0.1")] []),
   .asg (.pid "legend")
    (.call (.attr (.pid "ax3") "legend")
      [.tup [.pid "bc", .pid "b3db", .pid "bbf"],
       .tup [.str "Beam Center", .str "3 dB Beam width", .str "BBF"]]
      [("loc", .str "upper left"), ("fontsize", .num "10")])]

/-- Definitions of the two tick formatters. -/
def cell25 : List PyStmt :=
  [.funcDef "height_formatter" [("x", none), ("pos", none)]
    [.asg (.pid "x") (.binop "/" (.binop "-" (.pid "x") (.num "6370000")) (.num "1000")),
     .asg (.pid "fmt_str")
       (.call (.attr (.str "\x7b:g\x7d") "format") [.pid "x"] []),
     .ret (.pid "fmt_str")],
   .funcDef "range_formatter" [("x", none), ("pos", none)]
    [.asg (.pid "x") (.binop "/" (.pid "x") (.num "1000.0")),
     .asg (.pid "fmt_str")
       (.call (.attr (.str "\x7b:g\x7d") "format") [.pid "x"] []),
     .ret (.pid "fmt_str")]]

/-- Curvelinear-grid beam progression plot. -/
def cell26 : List PyStmt :=
  [.asg (.pid "fig")
    (.call (.attr (.pid "plt") "figure") [] [("figsize", .tup [.num "15", .num "8"])]),
   .tupAsg [.pid "cgax", .pid "caax", .pid "paax"]
    (.call (.attr (.attr (.pid "wrl") "vis") "create_cg") []
      [("fig", .pid "fig"), ("rot", .num "0"), ("scale", .num "1")]),
   .asg (.pid "angle") (.num "270"),
   .asg (.pid "er") (.num "6370000"),
   .asg (.pid "gh") (.call (.attr (.pid "cgax") "get_grid_helper") [] []),
   .asg (.attr (.attr (.attr (.pid "gh") "grid_finder") "grid_locator2") "_nbins")
     (.num "80"),
   .asg (.attr (.attr (.attr (.pid "gh") "grid_finder") "grid_locator2") "_steps")
     (.lst [.num "1", .num "2", .num "4", .num "5", .num "10"]),
   .asg (.pid "bhe")
    (.call (.attr (.attr (.pid "wrl") "georef") "bin_altitude")
      [.pid "r", .num "0", .sub (.pid "sitecoords") (.num "2")]
      [("re", .pid "er"), ("ke", .num "1.0")]),
   .asg (.pid "ade")
    (.call (.attr (.attr (.pid "wrl") "georef") "bin_distance")
      [.pid "r", .num "0", .sub (.pid "sitecoords") (.num "2")]
      [("re", .pid "er"), ("ke", .num "1.0")]),
   .asg (.pid "nn0") (.call (.attr (.pid "np") "zeros_like") [.pid "r"] []),
   .asg (.pid "ecp") (.binop "+" (.pid "nn0") (.pid "er")),
   .asg (.pid "thetap")
    (.binop "+"
      (.unop "-" (.call (.attr (.pid "np") "degrees")
        [.binop "/" (.pid "ade") (.pid "er")] []))
      (.num "90.0")),
   .asg (.pid "bh0")
    (.call (.attr (.attr (.pid "wrl") "georef") "bin_altitude")
      [.pid "r", .num "0", .sub (.pid "sitecoords") (.num "2")]
      [("re", .pid "er")]),
   .tupAsg [.pid "bes"]
    (.call (.attr (.pid "paax") "plot") [.pid "thetap", .pid "ecp", .str "-k"]
      [("linewidth", .num "3"), ("label", .str "Earth Surface NN")]),
   .tupAsg [.pid "bc"]
    (.call (.attr (.pid "paax") "plot")
      [.pid "thetap",
       .binop "+" (.pid "ecp")
         (.sub (.pid "alt") (.tup [.pid "angle", .sliceE none none])),
       .str "-b"]
      [("linewidth", .num "3"), ("label", .str "Beam Center")]),
   .tupAsg [.pid "bc0r"]
    (.call (.attr (.pid "paax") "plot")
      [.pid "thetap", .binop "+" (.pid "ecp") (.pid "bh0"), .str "-g"]
      [("label", .str "0 deg Refraction")]),
   .tupAsg [.pid "bc0n"]
    (.call (.attr (.pid "paax") "plot")
      [.pid "thetap", .binop "+" (.pid "ecp") (.pid "bhe"), .str "-r"]
      [("label", .str "0 deg line of sight")]),
   .tupAsg [.pid "b3db"]
    (.call (.attr (.pid "paax") "plot")
      [.pid "thetap",
       .binop "+"
         (.binop "+" (.pid "ecp")
           (.sub (.pid "alt") (.tup [.pid "angle", .sliceE none none])))
         (.pid "beamradius"),
       .str ":b"]
      [("label", .str "+3 dB Beam width")]),
   .expr (.call (.attr (.pid "paax") "plot")
     [.pid "thetap",
      .binop "-"
        (.binop "+" (.pid "ecp")
          (.sub (.pid "alt") (.tup [.pid "angle", .sliceE none none])))
        (.pid "beamradius"),
      .str ":b"]
     [("label", .str "-3 dB Beam width")]),
   .expr (.call (.attr (.pid "paax") "fill_between")
     [.pid "thetap", .pid "ecp",
      .binop "+" (.pid "ecp")
        (.sub (.pid "polarvalues") (.tup [.pid "angle", .sliceE none none]))]
     [("color", .str "0.75")]),
   .expr (.call (.attr (.pid "cgax") "set_xlim")
     [.num "0", .call (.attr (.pid "np") "max") [.pid "ade"] []] []),
   .expr (.call (.attr (.pid "cgax") "set_ylim")
     [.lst [.binop "-" (.call (.attr (.pid "ecp") "min") [] []) (.num "1000"),
            .binop "+" (.call (.attr (.pid "ecp") "max") [] []) (.num "2500")]] []),
   .expr (.call (.attr (.pid "caax") "grid") [.boolL true] [("axis", .str "x")]),
   .expr (.call (.attr (.pid "cgax") "grid") [.boolL true] [("axis", .str "y")]),
   .expr (.call (.attr (.sub (.attr (.pid "cgax") "axis") (.str "top")) "toggle")
     [] [("all", .boolL false)]),
   .expr (.call (.attr (.attr (.pid "caax") "yaxis") "set_major_locator")
     [.call (.attr (.attr (.pid "mpl") "ticker") "MaxNLocator") []
       [("steps", .lst [.num "1", .num "2", .num "4", .num "5", .num "10"]),
        ("nbins", .num "20"), ("prune", .str "both")]] []),
   .expr (.call (.attr (.attr (.pid "caax") "xaxis") "set_major_locator")
     [.call (.attr (.attr (.pid "mpl") "ticker") "MaxNLocator") [] []] []),
   .expr (.call (.attr (.attr (.pid "caax") "yaxis") "set_major_formatter")
     [.call (.attr (.attr (.pid "mpl") "ticker") "FuncFormatter")
       [.pid "height_formatter"] []] []),
   .expr (.call (.attr (.attr (.pid "caax") "xaxis") "set_major_formatter")
     [.call (.attr (.attr (.pid "mpl") "ticker") "FuncFormatter")
       [.pid "range_formatter"] []] []),
   .expr (.call (.attr (.pid "caax") "set_xlabel") [.str "Range (km)"] []),
   .expr (.call (.attr (.pid "caax") "set_ylabel") [.str "Altitude (km)"] []),
   .asg (.pid "legend")
    (.call (.attr (.pid "paax") "legend")
      [.tup [.pid "bes", .pid "bc0n", .pid "bc0r", .pid "bc", .pid "b3db"],
       .tup [.str "Earth Surface NN", .str "0 deg line of sight",
             .str "0 deg std refraction", .str "Beam Center",
             .str "3 dB Beam width"]]
      [("loc", .str "lower left"), ("fontsize", .num "10")])]

/-- Assign the cumulative beam blockage and re-georeference (AEQD). -/
def cell27 : List PyStmt :=
  [.asg (.pid "swpx")
    (.call (.attr (.pid "swpx") "assign")
      [.dict [(.str "CBB",
        .tup [.lst [.str "azimuth", .str "range"], .pid "CBB"])]] []),
   .asg (.pid "swpx")
    (.call (.attr (.pid "swpx") "pipe")
      [.attr (.attr (.pid "wrl") "georef") "georeference_dataset"] [])]

/-- Final quality-index plot: mask by CBB, CMAP and RHOHV. -/
def cell28 : List PyStmt :=
  [.asg (.pid "fig")
    (.call (.attr (.pid "plt") "figure") [] [("figsize", .tup [.num "12", .num "4"])]),
   .asg (.pid "ax1") (.call (.attr (.pid "fig") "add_subplot") [.num "121"] []),
   .expr (.call (.attr (.attr (.pid "swpx") "reflectivity") "plot") []
     [("x", .str "x"), ("y", .str "y"), ("ax", .pid "ax1"),
      ("cmap", .str "turbo"), ("vmin", .num "0"), ("vmax", .num "60")]),
   .expr (.call (.attr (.pid "ax1") "set_title")
     [.fstr "Signal Processor - \x7bswpx.time.values.astype(\x27M8[s]\x27)\x7d"] []),
   .expr (.call (.attr (.pid "ax1") "set_aspect") [.str "equal"] []),
   .asg (.pid "ax2") (.call (.attr (.pid "fig") "add_subplot") [.num "122"] []),
   .expr (.call (.attr (.attr
      (.call (.attr (.pid "swpx") "where")
        [.binop "&"
          (.binop "&"
            (.binop "<=" (.attr (.pid "swpx") "CBB") (.num "0.5"))
            (.binop "<" (.attr (.pid "swpx") "CMAP") (.num "1.0")))
          (.binop ">=" (.attr (.pid "swpx") "uncorrected_cross_correlation_ratio")
            (.num "0.8"))] [])
      "reflectivity_hh_clut") "plot") []
     [("x", .str "x"), ("y", .str "y"), ("ax", .pid "ax2"),
      ("cmap", .str "turbo"), ("vmin", .num "0"), ("vmax", .num "60")]),
   .expr (.call (.attr (.pid "ax2") "set_title")
     [.fstr "Gabella+CBB+RHOHV - \x7bswpx.time.values.astype(\x27M8[s]\x27)\x7d"] []),
   .expr (.call (.attr (.pid "ax2") "set_aspect") [.str "equal"] [])]

/-- The code cells of the notebook, in order. -/
def wradlibDataQualityCells : List (List PyStmt) :=
  [cell01, cell02, cell03, cell04, cell05, cell06, cell07, cell08, cell09,
   cell10, cell11, cell12, cell13, cell14, cell15, cell16, cell17, cell18,
   cell19, cell20, cell21, cell22, cell23, cell24, cell25, cell26, cell27,
   cell28]

/-- The whole notebook program: its code cells concatenated in order. -/
def notebookProgram : List PyStmt := wradlibDataQualityCells.flatMap id

/-! ## The book's table of contents

Transcription of `src/unnamed/part_000` (the jb-book `_toc.yml`):
format, root and the four parts with their chapters and sections.
-/

structure Chapter where
  file : String
  sections : List String
deriving Repr, DecidableEq

structure TocPart where
  caption : String
  chapters : List Chapter
deriving Repr, DecidableEq

structure Toc where
  format : String
  root : String
  parts : List TocPart
deriving Repr, DecidableEq

/-- The table of contents of the book, as written in the source. -/
def bookToc : Toc :=
  { format := "jb-book"
    root := "README"
    parts :=
      [{ caption := "Introductions + Overview"
         chapters :=
           [{ file := "introductions/getting-started", sections := [] },
            { file := "introductions/open-science", sections := [] },
            { file := "introductions/open-radar", sections := [] }] },
       { caption := "Tool Foundations"
         chapters :=
           [{ file := "pyart/README.md"
              sections :=
                ["notebooks/pyart/pyart-basics",
                 "notebooks/pyart/pyart-gridding",
                 "notebooks/pyart/exercice1_swiss_thunderstorm",
                 "notebooks/pyart/exercice2_swiss_doppler",
                 "notebooks/pyart/question_pyart_meteoswiss",
                 "notebooks/pyart/answer_question_pyart_meteoswiss"] },
            { file := "wradlib/README.md"
              sections :=
                ["notebooks/wradlib/wradlib_intro",
                 "notebooks/wradlib/wradlib_radar_data_io_vis",
                 "notebooks/wradlib/wradlib_data_quality",
                 "notebooks/wradlib/wradlib_differential_phase",
                 "notebooks/wradlib/wradlib_quasi_vertical_profiles"] },
            { file := "baltrad/README.md"
              sections :=
                ["notebooks/baltrad_short_course/BALTRAD Compositing",
                 "notebooks/baltrad_short_course/BALTRAD DRQC",
                 "notebooks/baltrad_short_course/BALTRAD IO",
                 "notebooks/baltrad_short_course/BALTRAD parallel processing",
                 "notebooks/baltrad_short_course/BALTRAD QC"] },
            { file := "lrose/README.md"
              sections :=
                ["notebooks/lrose/nexrad_mosaic.erad_tutorial.ipynb"] },
            { file := "notebooks/environment", sections := [] }] },
       { caption := "Open Radar Workflows"
         chapters :=
           [{ file := "workflows/README.md"
              sections :=
                ["notebooks/baltrad2wradlib/baltrad2wradlib",
                 "notebooks/pyart2baltrad/baltrad_pyart_rain_rate_example",
                 "notebooks/pyart2baltrad/pyart_baltrad_dealias_example"] }] },
       { caption := "Becoming a developer"
         chapters :=
           [{ file := "package-development/README.md", sections := [] }] }] }

/-- All chapters of the book, in table-of-contents order. -/
def allChapters (t : Toc) : List Chapter := t.parts.flatMap TocPart.chapters

/-- All chapter and section files of the book, in order. -/
def allFiles (t : Toc) : List String :=
  (allChapters t).flatMap fun c => c.file :: c.sections

/-! ## Paths and chapter directories -/

/-- Split a character list at every occurrence of a separator. -/
def splitChar (c : Char) : List Char → List (List Char)
  | [] => [[]]
  | x :: xs =>
    if x = c then [] :: splitChar c xs
    else
      match splitChar c xs with
      | [] => [[x]]
      | g :: gs => (x :: g) :: gs

/-- The path separator. -/
def slash : Char := Char.ofNat 47

/-- Split a file path into its components. -/
def pathComps (p : String) : List String :=
  (splitChar slash p.data).map List.asString

/-- Whether a string contains a path separator. -/
def hasSlash (s : String) : Bool := s.data.contains slash

/-- Whether one string is a prefix of another. -/
def strStarts (pre s : String) : Bool := pre.data.isPrefixOf s.data

/-- Resolve a relative path against a base directory (given as a component
list), interpreting `..` and `.` as in POSIX. -/
def resolveRel (base : List String) (p : String) : List String :=
  (pathComps p).foldl
    (fun acc c => if c = ".." then acc.dropLast else if c = "." then acc else acc ++ [c])
    base

/-- The directory (component list) a chapter or section file lives in. -/
def fileDir (f : String) : List String := (pathComps f).dropLast

/-- The directories a chapter owns: the directories of its file and of each
of its sections. -/
def chapterDirs (c : Chapter) : List (List String) :=
  (fileDir c.file :: c.sections.map fileDir).dedup

/-- Whether a resolved path lies under a directory. -/
def underDir (d : List String) (p : List String) : Bool := d.isPrefixOf p

/-- The directory the wradlib data-quality notebook lives in (its ToC entry
is `notebooks/wradlib/wradlib_data_quality`); relative paths in the notebook
resolve against it, since Jupyter runs a notebook with the notebook's own
directory as working directory. -/
def notebookDir : List String := ["notebooks", "wradlib"]

/-- The string literals of the notebook that denote file paths: the literals
containing a path separator. -/
def notebookPathLits : List String :=
  (strLits notebookProgram).filter hasSlash

/-! ## Input channels of the notebook's own code (claim C2) -/

/-- An external input channel a piece of notebook code can touch. -/
inductive Channel where
  | fileGlob
  | fileOpen
  | envVar (k : String)
  | network
  | cmdArg
  | prompt
deriving DecidableEq, Repr

/-- The channels an expression touches: glob discovery, dataset file opens,
`os.environ` access (read or write), and — never occurring in this
notebook — network client calls, `sys.argv`, and interactive prompts. -/
def exprChannels : PyExpr → List Channel
  | .call f _ _ =>
    (match dottedName f with
     | some n =>
       if n = "glob.glob" then [.fileGlob]
       else if n = "xr.open_dataset" then [.fileOpen]
       else if n = "input" then [.prompt]
       else if strStarts "urllib" n || strStarts "requests" n
            || strStarts "socket" n || strStarts "http" n
            || strStarts "ftplib" n then [.network]
       else []
     | none => [])
  | .sub (.attr (.pid "os") "environ") (.str k) => [.envVar k]
  | .sub (.attr (.pid "sys") "argv") _ => [.cmdArg]
  | .attr (.pid "sys") "argv" => [.cmdArg]
  | .attr (.pid "sys") "stdin" => [.prompt]
  | _ => []

/-- All channel touches in a program, in occurrence order. -/
def rawChannels (prog : List PyStmt) : List Channel :=
  (allExprs prog).flatMap exprChannels

/-- All channels touched anywhere in a program, deduplicated. -/
def channels (prog : List PyStmt) : List Channel :=
  (rawChannels prog).dedup

/-! ## Locally defined functions and library calls (claims C3, C7) -/

/-- Whether a function body consists of a single `return` of a single call
into one of the third-party libraries imported by the notebook. -/
def wrapsSingleLibraryCall : List PyStmt → Bool
  | [.ret (.call f _ _)] =>
    (match dottedName f with
     | some n => strStarts "xr." n || strStarts "wrl." n
     | none => false)
  | _ => false

/-- Method names of all calls in a body (for calls through an attribute or a
plain identifier). -/
def bodyCallMethods (b : List PyStmt) : List String :=
  (allExprs b).filterMap callMethodName

/-- Axis/tick/label styling and string formatting calls: the only calls the
notebook's plotting helpers make. -/
def axisFormattingMethods : List String :=
  ["get_xticks", "set_xticks", "set_xticklabels", "get_yticks", "set_yticks",
   "set_yticklabels", "set_xlabel", "set_ylabel", "colorbar", "set_title",
   "grid", "astype", "format"]

/-- Whether every call of a body is an axis-styling or string-formatting
call. -/
def formatsAxesOnly (b : List PyStmt) : Bool :=
  (bodyCallMethods b).all (fun m => axisFormattingMethods.contains m)

/-- Modules whose import would bring in a thread/process/scheduling facility
of the notebook's own. -/
def concurrencyModules : List String :=
  ["threading", "multiprocessing", "concurrent", "concurrent.futures",
   "subprocess", "asyncio", "queue", "sched"]

/-- Calls that would create a thread or process or schedule work. -/
def isConcurrencyCall (n : String) : Bool :=
  strStarts "threading." n || strStarts "multiprocessing." n
  || strStarts "concurrent." n || strStarts "subprocess." n
  || strStarts "asyncio." n
  || n = "os.fork" || n = "os.popen" || n = "os.system" || n = "os.spawnv"

/-- The modules a program imports (plain and from-imports). -/
def importedModules (prog : List PyStmt) : List String :=
  (stmtsAll prog).filterMap fun s =>
    match s with
    | .imp m _ => some m
    | .impFrom m _ => some m
    | _ => none

/-- The values passed for a keyword in all `xr.apply_ufunc` calls of a
program. -/
def applyUfuncKwarg (key : String) (prog : List PyStmt) : List PyExpr :=
  (allExprs prog).flatMap fun e =>
    match e with
    | .call f _ kw =>
      if dottedName f = some "xr.apply_ufunc" then
        kw.filterMap (fun p => if p.1 = key then some p.2 else none)
      else []
    | _ => []

/-! ## Construction and mutation accounting (claim C4) -/

/-- Library constructors of radar-data entities (radar volumes, sweep
datasets, DEM DataArrays). -/
def dataStructureConstructors : List String :=
  ["wrl.io.RadarVolume", "xr.DataArray", "xr.Dataset"]

/-- Calls in a program that construct a radar-data entity. -/
def radarDataConstructions (prog : List PyStmt) : List String :=
  (callNames prog).filter (fun n => dataStructureConstructors.contains n)

/-- Dotted names of calls to in-place mutating container methods. -/
def mutatorCalls (prog : List PyStmt) : List String :=
  (allExprs prog).filterMap fun e =>
    match e with
    | .call (.attr b m) _ _ =>
      if ["extend", "sort", "append", "update", "insert", "pop", "remove"].contains m
      then dottedName (.attr b m) else none
    | _ => none

/-- Dotted names of calls to the (non-mutating, new-dataset-returning)
`Dataset.assign` method. -/
def assignCalls (prog : List PyStmt) : List String :=
  (allExprs prog).filterMap fun e =>
    match e with
    | .call (.attr b "assign") _ _ => dottedName (.attr b "assign")
    | _ => none

/-- Dotted base names of subscript-assignment targets (`base[k] = v`). -/
def subAssignTargets (prog : List PyStmt) : List String :=
  (stmtsAll prog).filterMap fun s =>
    match s with
    | .asg (.sub b _) _ => dottedName b
    | _ => none

/-- Dotted names of attribute-assignment targets (`base.f = v`). -/
def attrAssignTargets (prog : List PyStmt) : List String :=
  (stmtsAll prog).filterMap fun s =>
    match s with
    | .asg (.attr b f) _ => dottedName (.attr b f)
    | _ => none

/-- Dotted names appearing as positional arguments of `xr.apply_ufunc`
calls (the wrapped kernel function among them). -/
def applyUfuncArgNames (prog : List PyStmt) : List String :=
  (allExprs prog).flatMap fun e =>
    match e with
    | .call f args _ =>
      if dottedName f = some "xr.apply_ufunc" then args.filterMap dottedName
      else []
    | _ => []

/-! ## The volume pipeline (claim C8)

Functional model of notebook cells 2-4: glob the files, sort the file list,
open each file once as a sweep dataset, extend an empty RadarVolume with the
open datasets, and sort the volume with `key=lambda x: x.time.min()`.
The per-file `xr.open_dataset` is library behaviour and enters the model as
a parameter.  Python's `list.sort` is a stable comparison sort; it is
modelled by `List.mergeSort`.
-/

/-- A sweep dataset, reduced to the field the pipeline inspects: its time
coordinate values. -/
structure Sweep where
  time : List Rat
deriving DecidableEq, Repr

/-- `x.time.min()`: the minimum of the sweep's time values (an arbitrary
default for an empty time coordinate, on which the library call would
fail). -/
def Sweep.minTime (s : Sweep) : Rat := (s.time.min?).getD 0

/-- `wrl.io.RadarVolume`: an engine tag and the held sweeps. -/
structure RadarVolume where
  engine : String
  sweeps : List Sweep
deriving DecidableEq, Repr

/-- `vol.extend(ds)`: append the datasets to the volume. -/
def RadarVolume.extend (v : RadarVolume) (ds : List Sweep) : RadarVolume :=
  { v with sweeps := v.sweeps ++ ds }

/-- `vol.sort(key=...)`: stable sort of the held sweeps by a key. -/
def RadarVolume.sortKey (v : RadarVolume) (key : Sweep → Rat) : RadarVolume :=
  { v with sweeps := v.sweeps.mergeSort (fun a b => decide (key a ≤ key b)) }

/-- Cells 2-4 of the notebook as one function from the matched file list
(and the library's open function) to the final volume. -/
def openVolume (open_dataset : String → Sweep) (files : List String) : RadarVolume :=
  let flist := files.mergeSort (fun a b => decide (a ≤ b))
  let ds := flist.map open_dataset
  ((RadarVolume.mk "cfradial1" []).extend ds).sortKey Sweep.minTime

/-- A concrete open function for evaluating the pipeline. -/
def demoOpen : String → Sweep := fun s => ⟨[(s.length : Rat)]⟩

/-- A concrete file list for evaluating the pipeline. -/
def demoFiles : List String := ["MLL2217907250U.002.nc", "MLL2217907250U.0.nc"]

/-! ## apply_ufunc dimension handling (claim C9)

Shape-level model of `xr.apply_ufunc` for a single input DataArray,
following xarray's documented semantics: the dimensions of an input that are
not core dimensions become loop (broadcast) dimensions and are kept; the
output carries the loop dimensions followed by the output core dimensions,
whose sizes are taken from the input (the notebook passes no `output_sizes`,
and `wrl.clutter.filter_gabella` returns an array of its input's shape).
-/

/-- A DataArray at shape level: its dimensions in order, with sizes. -/
structure DataArrayShape where
  dims : List (String × Nat)
deriving DecidableEq, Repr

/-- Shape-level `xr.apply_ufunc` for one input array. -/
def applyUfuncShape (inputCoreDims outputCoreDims : List String)
    (da : DataArrayShape) : DataArrayShape :=
  let loop := da.dims.filter (fun p => !(inputCoreDims.contains p.1))
  let core := outputCoreDims.map
    (fun n => (n, ((da.dims.find? (fun p => p.1 = n)).map Prod.snd).getD 0))
  ⟨loop ++ core⟩

/-- The notebook's `extract_clutter` at shape level: apply_ufunc with
`input_core_dims=[["azimuth", "range"]]` and
`output_core_dims=[["azimuth", "range"]]`. -/
def extract_clutter (da : DataArrayShape) : DataArrayShape :=
  applyUfuncShape ["azimuth", "range"] ["azimuth", "range"] da

/-- A concrete sweep shape for evaluating `extract_clutter`. -/
def demoShape : DataArrayShape := ⟨[("azimuth", 360), ("range", 492)]⟩

/-! ## The final quality mask (claim C10)

Value-level model of the last processing cell:
`swpx.where((swpx.CBB <= 0.5) & (swpx.CMAP < 1.0) &
(swpx.uncorrected_cross_correlation_ratio >= 0.8))`, read off at a single
gate (azimuth/range bin).  `none` models a missing value (NaN); as in
numpy, every comparison against a missing value is false.
-/

/-- A gate value: a number, or missing (NaN). -/
abbrev RVal := Option Rat

/-- `a <= t` with numpy missing-value semantics. -/
def nanLe (a : RVal) (t : Rat) : Bool :=
  match a with
  | some x => decide (x ≤ t)
  | none => false

/-- `a < t` with numpy missing-value semantics. -/
def nanLt (a : RVal) (t : Rat) : Bool :=
  match a with
  | some x => decide (x < t)
  | none => false

/-- `a >= t` with numpy missing-value semantics. -/
def nanGe (a : RVal) (t : Rat) : Bool :=
  match a with
  | some x => decide (t ≤ x)
  | none => false

/-- The data variables of the georeferenced sweep dataset that the final
cell involves, at one gate. -/
structure GateValues where
  reflectivity_hh_clut : RVal
  reflectivity : RVal
  CBB : RVal
  CMAP : RVal
  uncorrected_cross_correlation_ratio : RVal
deriving DecidableEq, Repr

/-- The where-condition of the final cell at one gate:
`(swpx.CBB <= 0.5) & (swpx.CMAP < 1.0) &
(swpx.uncorrected_cross_correlation_ratio >= 0.8)`. -/
def qualityCond (g : GateValues) : Bool :=
  (nanLe g.CBB 0.5 && nanLt g.CMAP 1.0)
    && nanGe g.uncorrected_cross_correlation_ratio 0.8

/-- `Dataset.where(cond)` at one gate: keep every data variable where the
condition holds, make all of them missing elsewhere. -/
def whereGate (cond : Bool) (g : GateValues) : GateValues :=
  if cond then g else ⟨none, none, none, none, none⟩

/-- The final cell's masking, at one gate. -/
def qualityMask (g : GateValues) : GateValues := whereGate (qualityCond g) g

/-! ## Chapter directory ownership (claim C1) -/

/-- Whether a directory belongs to a chapter exclusively: no other chapter
of the book has a chapter or section directory that the directory contains.
(The shared parent `notebooks/` — the directory of the bare
`notebooks/environment` chapter file — is nobody's exclusive directory.) -/
def dirOwnedExclusively (t : Toc) (c : Chapter) (d : List String) : Bool :=
  (allChapters t).all fun c2 =>
    c2 = c || (chapterDirs c2).all (fun d2 => !(d.isPrefixOf d2))

/-- The Py-ART chapter of the table of contents (fourth chapter overall). -/
def pyartChapter : Chapter := ((allChapters bookToc).get? 3).getD ⟨"", []⟩

set_option maxRecDepth 2048

/-! ## Compositional evaluation lemmas

Whole-program analyses are evaluated cell by cell: each analysis
distributes over list append, and the notebook program is the
concatenation of its cells.
-/

/-- stmtsAll distributes over append. -/
theorem stmtsAll_append (a b : List PyStmt) :
    stmtsAll (a ++ b) = stmtsAll a ++ stmtsAll b := by
  induction a with
  | nil => rfl
  | cons s ss ih => simp [stmtsAll, ih]

/-- allExprs distributes over append. -/
theorem allExprs_append (a b : List PyStmt) :
    allExprs (a ++ b) = allExprs a ++ allExprs b := by
  simp [allExprs, stmtsAll_append]

/-- An analysis that distributes over append maps over the cell list. -/
theorem flatMap_eval {γ : Type} (F : List PyStmt → List γ)
    (hF : ∀ a b, F (a ++ b) = F a ++ F b) (hnil : F [] = [])
    (cells : List (List PyStmt)) :
    F (cells.flatMap id) = cells.flatMap F := by
  induction cells with
  | nil => simpa using hnil
  | cons c cs ih => simp only [List.flatMap_cons, id_eq, hF, ih]

/-- callNames distributes over append. -/
theorem callNames_append (a b : List PyStmt) :
    callNames (a ++ b) = callNames a ++ callNames b := by
  simp [callNames, allExprs_append]

/-- strLits distributes over append. -/
theorem strLits_append (a b : List PyStmt) :
    strLits (a ++ b) = strLits a ++ strLits b := by
  simp [strLits, allExprs_append]

/-- rawChannels distributes over append. -/
theorem rawChannels_append (a b : List PyStmt) :
    rawChannels (a ++ b) = rawChannels a ++ rawChannels b := by
  simp [rawChannels, allExprs_append]

/-- mutatorCalls distributes over append. -/
theorem mutatorCalls_append (a b : List PyStmt) :
    mutatorCalls (a ++ b) = mutatorCalls a ++ mutatorCalls b := by
  simp [mutatorCalls, allExprs_append]

/-- assignCalls distributes over append. -/
theorem assignCalls_append (a b : List PyStmt) :
    assignCalls (a ++ b) = assignCalls a ++ assignCalls b := by
  simp [assignCalls, allExprs_append]

/-- The notebook's path-denoting string literals are its input glob and the
wradlib data directory. -/
theorem notebookPathLits_eq :
    notebookPathLits = [fglobLit, "data/wradlib-data"] := by
  have h := flatMap_eval strLits strLits_append rfl wradlibDataQualityCells
  unfold notebookPathLits
  rw [show strLits notebookProgram = wradlibDataQualityCells.flatMap strLits from h]
  rfl

/-- The notebook's channels: the file glob, the dataset file opens, and the
two wradlib environment variables. -/
theorem channels_eq :
    channels notebookProgram =
      [Channel.fileGlob, Channel.fileOpen,
       Channel.envVar "WRADLIB_EARTHDATA_BEARER_TOKEN",
       Channel.envVar "WRADLIB_DATA"] := by
  have h := flatMap_eval rawChannels rawChannels_append rfl wradlibDataQualityCells
  unfold channels
  rw [show rawChannels notebookProgram = wradlibDataQualityCells.flatMap rawChannels from h]
  rfl

/-- The notebook's in-place container mutations: the file-list sort and the
RadarVolume extend/sort. -/
theorem mutatorCalls_eq :
    mutatorCalls notebookProgram = ["flist.sort", "vol.extend", "vol.sort"] := by
  have h := flatMap_eval mutatorCalls mutatorCalls_append rfl wradlibDataQualityCells
  rw [show mutatorCalls notebookProgram = wradlibDataQualityCells.flatMap mutatorCalls from h]
  rfl

/-- The notebook's Dataset.assign calls. -/
theorem assignCalls_eq :
    assignCalls notebookProgram = ["swp.assign", "swpx.assign"] := by
  have h := flatMap_eval assignCalls assignCalls_append rfl wradlibDataQualityCells
  rw [show assignCalls notebookProgram = wradlibDataQualityCells.flatMap assignCalls from h]
  rfl

/-- The radar-data entities the notebook constructs itself: the RadarVolume
and the DEM DataArray. -/
theorem radarDataConstructions_eq :
    radarDataConstructions notebookProgram = ["wrl.io.RadarVolume", "xr.DataArray"] := by
  have h := flatMap_eval radarDataConstructions
    (fun a b => by simp [radarDataConstructions, callNames_append]) rfl
    wradlibDataQualityCells
  rw [show radarDataConstructions notebookProgram
      = wradlibDataQualityCells.flatMap radarDataConstructions from h]
  rfl

/-- Every wradlib call of the notebook. -/
theorem wrlCallNames_eq :
    (callNames notebookProgram).filter (fun n => strStarts "wrl." n) =
      ["wrl.io.RadarVolume", "wrl.zonalstats.get_bbox", "wrl.io.get_srtm",
       "wrl.georef.read_gdal_values", "wrl.georef.read_gdal_coordinates",
       "wrl.util.half_power_radius", "wrl.georef.extract_raster_dataset",
       "wrl.util.find_bbox_indices", "wrl.ipol.cart_to_irregular_spline",
       "wrl.qual.beam_block_frac", "wrl.qual.cum_beam_block_frac",
       "wrl.vis.plot_ppi", "wrl.vis.plot_ppi", "wrl.vis.create_cg",
       "wrl.georef.bin_altitude", "wrl.georef.bin_distance",
       "wrl.georef.bin_altitude"] := by
  have h := flatMap_eval
    (fun prog => (callNames prog).filter (fun n => strStarts "wrl." n))
    (fun a b => by simp [callNames_append]) rfl wradlibDataQualityCells
  exact h.trans (by rfl)

/-- The notebook calls no thread/process/scheduling primitive. -/
theorem concurrencyCalls_eq :
    (callNames notebookProgram).filter isConcurrencyCall = [] := by
  have h := flatMap_eval
    (fun prog => (callNames prog).filter isConcurrencyCall)
    (fun a b => by simp [callNames_append]) rfl wradlibDataQualityCells
  exact h.trans (by rfl)

/-- The only value the notebook passes for apply_ufunc's dask keyword is
the string "parallelized". -/
theorem ufuncKwargDask_eq :
    applyUfuncKwarg "dask" notebookProgram = [.str "parallelized"] := by
  have h := flatMap_eval (applyUfuncKwarg "dask")
    (fun a b => by simp [applyUfuncKwarg, allExprs_append]) rfl
    wradlibDataQualityCells
  exact h.trans (by rfl)

/-- The positional arguments of the notebook's apply_ufunc call: the
wradlib Gabella kernel and the input array. -/
theorem ufuncArgNames_eq :
    applyUfuncArgNames notebookProgram = ["wrl.clutter.filter_gabella", "da"] := by
  have h := flatMap_eval applyUfuncArgNames
    (fun a b => by simp [applyUfuncArgNames, allExprs_append]) rfl
    wradlibDataQualityCells
  exact h.trans (by rfl)

/-! ## Claims -/

/-- C1 counterexample: the claim that no chapter's notebook reads files
located under another chapter's directory is false — the wradlib
data-quality notebook's input glob `../pyart/data/...` resolves to a path
under `notebooks/pyart`, a directory owned exclusively by the Py-ART
chapter, which is a different chapter than the wradlib one. -/
theorem c1_counterexample :
    ¬ (∀ c ∈ allChapters bookToc, c.file ≠ "wradlib/README.md" →
        ∀ p ∈ notebookPathLits, ∀ d ∈ chapterDirs c,
          dirOwnedExclusively bookToc c d = true →
            underDir d (resolveRel notebookDir p) = false) := by
  simp only [notebookPathLits_eq]
  decide

/-- C1 (amended): the chapters of the book are independent except for a
single cross-chapter data dependency: the only file path in the wradlib
data-quality notebook's code that resolves into a directory owned by a
different chapter is the input file glob, which points into the Py-ART
chapter's data directory `notebooks/pyart`; that glob is also the
notebook's only data-discovery path besides its own wradlib data
directory. -/
theorem c1_cross_chapter_reads :
    ∀ c ∈ allChapters bookToc, c.file ≠ "wradlib/README.md" →
      ∀ p ∈ notebookPathLits, ∀ d ∈ chapterDirs c,
        dirOwnedExclusively bookToc c d = true →
          underDir d (resolveRel notebookDir p) = true →
            p = fglobLit ∧ c.file = "pyart/README.md" ∧ d = ["notebooks", "pyart"] := by
  simp only [notebookPathLits_eq]
  decide

/-- Witness for C1: the amended statement applied to the Py-ART chapter,
the notebook's glob literal and the `notebooks/pyart` directory. -/
theorem c1_witness :
    fglobLit = fglobLit ∧ pyartChapter.file = "pyart/README.md"
      ∧ (["notebooks", "pyart"] : List String) = ["notebooks", "pyart"] :=
  c1_cross_chapter_reads pyartChapter (by decide) (by decide) fglobLit
    (by simp [notebookPathLits_eq]) ["notebooks", "pyart"] (by decide) (by decide)
    (by decide)

/-- C2: the notebook's only external input interfaces are the file glob
(with the dataset opens of the globbed files) and the two environment
variables WRADLIB_EARTHDATA_BEARER_TOKEN and WRADLIB_DATA; no network URL,
command-line argument or interactive prompt is touched by the notebook's
own code. -/
theorem c2_input_channels :
    channels notebookProgram =
      [Channel.fileGlob, Channel.fileOpen,
       Channel.envVar "WRADLIB_EARTHDATA_BEARER_TOKEN",
       Channel.envVar "WRADLIB_DATA"]
    ∧ (channels notebookProgram).filter
        (fun c => [Channel.network, Channel.cmdArg, Channel.prompt].contains c) = [] := by
  refine ⟨channels_eq, ?_⟩
  rw [channels_eq]
  rfl

/-- C3: the notebook defines exactly the four local functions
extract_clutter, annotate_map, height_formatter and range_formatter;
extract_clutter's body is a single return of one xarray library call
(apply_ufunc, wrapping wradlib's Gabella kernel, which appears among the
call's positional arguments), the other three only call axis-styling and
string-formatting methods; and every signal-processing step (clutter
filtering, beam blockage, georeferencing, interpolation, file input) is a
call into the third-party wradlib/xarray public API. -/
theorem c3_local_functions :
    (funcDefs notebookProgram).map
        (fun t => (t.1, wrapsSingleLibraryCall t.2.2, formatsAxesOnly t.2.2)) =
      [("extract_clutter", true, false), ("annotate_map", false, true),
       ("height_formatter", false, true), ("range_formatter", false, true)]
    ∧ "wrl.clutter.filter_gabella" ∈ applyUfuncArgNames notebookProgram
    ∧ (callNames notebookProgram).filter (fun n => strStarts "wrl." n) =
      ["wrl.io.RadarVolume", "wrl.zonalstats.get_bbox", "wrl.io.get_srtm",
       "wrl.georef.read_gdal_values", "wrl.georef.read_gdal_coordinates",
       "wrl.util.half_power_radius", "wrl.georef.extract_raster_dataset",
       "wrl.util.find_bbox_indices", "wrl.ipol.cart_to_irregular_spline",
       "wrl.qual.beam_block_frac", "wrl.qual.cum_beam_block_frac",
       "wrl.vis.plot_ppi", "wrl.vis.plot_ppi", "wrl.vis.create_cg",
       "wrl.georef.bin_altitude", "wrl.georef.bin_distance",
       "wrl.georef.bin_altitude"]
    ∧ "xr.open_dataset" ∈ callNames notebookProgram
    ∧ "xr.apply_ufunc" ∈ callNames notebookProgram := by
  refine ⟨by rfl, ?_, wrlCallNames_eq, by decide, by decide⟩
  simp [ufuncArgNames_eq]

/-- C4 counterexample: the claim that the notebook constructs and modifies
no radar-data entity of its own is false — it constructs a RadarVolume and
a DEM DataArray itself and mutates/extends them (RadarVolume.extend/sort,
Dataset.assign of CMAP and CBB). -/
theorem c4_counterexample :
    ¬ (radarDataConstructions notebookProgram = []
       ∧ mutatorCalls notebookProgram = []
       ∧ assignCalls notebookProgram = []) := by
  simp [radarDataConstructions_eq]

/-- C4 (amended): the notebook defines no data type of its own (no class
definition), and every radar-data construction or modification it performs
goes through the external libraries' published interfaces: it constructs
exactly a `wrl.io.RadarVolume` and an `xr.DataArray`, its only in-place
container mutations are the file-list sort and the RadarVolume
extend/sort, new dataset variables are added only through the
new-dataset-returning `Dataset.assign`, its only subscript-assignment
target is `os.environ`, and its only attribute assignments touch a
matplotlib grid helper, not a radar-data entity. -/
theorem c4_constructions_published :
    radarDataConstructions notebookProgram = ["wrl.io.RadarVolume", "xr.DataArray"]
    ∧ mutatorCalls notebookProgram = ["flist.sort", "vol.extend", "vol.sort"]
    ∧ assignCalls notebookProgram = ["swp.assign", "swpx.assign"]
    ∧ (stmtsAll notebookProgram).filter isClassDef = []
    ∧ subAssignTargets notebookProgram = ["os.environ", "os.environ"]
    ∧ attrAssignTargets notebookProgram =
        ["gh.grid_finder.grid_locator2._nbins", "gh.grid_finder.grid_locator2._steps"] :=
  ⟨radarDataConstructions_eq, mutatorCalls_eq, assignCalls_eq, rfl, rfl, rfl⟩

/-- C5: the notebook defines no error handling — none of its statements,
nested function bodies included, is a try/except block, and none is a
raise statement, so any exception of an underlying library call propagates
out of the notebook cell unmodified and uncaught. -/
theorem c5_no_exception_handling :
    (stmtsAll notebookProgram).filter isTry = []
    ∧ (stmtsAll notebookProgram).filter isRaise = [] := ⟨rfl, rfl⟩

/-- C6: the book's table of contents is a static tree whose four parts
occur in the order introductions/overview, tool tutorials (with the
chapters Py-ART, wradlib, BALTRAD, LROSE in that order), open-radar
workflow tutorials, and the developer guide last, and every chapter and
section file is listed exactly once. -/
theorem c6_toc_structure :
    bookToc.format = "jb-book"
    ∧ bookToc.parts.map TocPart.caption =
        ["Introductions + Overview", "Tool Foundations",
         "Open Radar Workflows", "Becoming a developer"]
    ∧ (allChapters bookToc).map Chapter.file =
        ["introductions/getting-started", "introductions/open-science",
         "introductions/open-radar", "pyart/README.md", "wradlib/README.md",
         "baltrad/README.md", "lrose/README.md", "notebooks/environment",
         "workflows/README.md", "package-development/README.md"]
    ∧ (allFiles bookToc).Nodup := by
  refine ⟨rfl, rfl, rfl, by decide⟩

/-- C7: all parallelism in the notebook is delegated to the external
array-computing stack — the one apply_ufunc call passes
dask="parallelized", the CMAP variable is rechunked through `.chunk` for
plotting — while the notebook's own code imports no concurrency module and
calls no thread-, process- or scheduler-creating primitive. -/
theorem c7_parallelism_delegated :
    importedModules notebookProgram =
      ["glob", "os", "cartopy", "cartopy.crs", "cartopy.feature",
       "matplotlib", "matplotlib.pyplot", "numpy", "xarray", "wradlib",
       "osgeo", "hvplot", "hvplot.xarray"]
    ∧ (importedModules notebookProgram).filter
        (fun m => concurrencyModules.contains m) = []
    ∧ (callNames notebookProgram).filter isConcurrencyCall = []
    ∧ applyUfuncKwarg "dask" notebookProgram = [.str "parallelized"]
    ∧ "chunk" ∈ bodyCallMethods cell18 := by
  refine ⟨rfl, by rfl, concurrencyCalls_eq, ufuncKwargDask_eq, by decide⟩

/-- C8: for every file list matched by the glob and every open function,
after the file-list sort and the volume sort by each sweep's minimum time,
the sweeps held in the RadarVolume are in nondecreasing order of minimum
time, the volume holds exactly the opened sweeps (a permutation of them,
nothing added or dropped), and when the opened sweeps are pairwise
distinct, every opened sweep appears exactly once in the volume. -/
theorem c8_volume_sorted_unique (open_dataset : String → Sweep) (files : List String) :
    (openVolume open_dataset files).sweeps.Pairwise
      (fun a b => a.minTime ≤ b.minTime)
    ∧ (openVolume open_dataset files).sweeps.Perm (files.map open_dataset)
    ∧ ((files.map open_dataset).Nodup →
        ∀ s ∈ files.map open_dataset,
          (openVolume open_dataset files).sweeps.count s = 1) := by
  have hvol : (openVolume open_dataset files).sweeps
      = ((files.mergeSort (fun a b => decide (a ≤ b))).map open_dataset).mergeSort
          (fun a b => decide (a.minTime ≤ b.minTime)) := by
    simp [openVolume, RadarVolume.extend, RadarVolume.sortKey]
  have hperm : (openVolume open_dataset files).sweeps.Perm (files.map open_dataset) := by
    rw [hvol]
    exact (List.mergeSort_perm _ _).trans ((List.mergeSort_perm files _).map open_dataset)
  refine ⟨?_, hperm, ?_⟩
  · rw [hvol]
    have h := @List.sorted_mergeSort Sweep
      (fun a b => decide (a.minTime ≤ b.minTime))
      (fun a b c hab hbc => by
        simp only [decide_eq_true_eq] at *
        exact le_trans hab hbc)
      (fun a b => by
        simp only [Bool.or_eq_true, decide_eq_true_eq]
        exact le_total a.minTime b.minTime)
      ((files.mergeSort (fun a b => decide (a ≤ b))).map open_dataset)
    exact h.imp (fun hab => by simpa using hab)
  · intro hnd s hs
    rw [hperm.count_eq]
    exact List.count_eq_one_of_mem hnd hs

/-- Witness for C8: the pipeline on two concrete files with a concrete open
function; the second file's sweep appears exactly once. -/
theorem c8_witness :
    (openVolume demoOpen demoFiles).sweeps.Pairwise
      (fun a b => a.minTime ≤ b.minTime)
    ∧ (openVolume demoOpen demoFiles).sweeps.Perm (demoFiles.map demoOpen)
    ∧ (openVolume demoOpen demoFiles).sweeps.count
        (demoOpen "MLL2217907250U.0.nc") = 1 := by
  obtain ⟨h1, h2, h3⟩ := c8_volume_sorted_unique demoOpen demoFiles
  exact ⟨h1, h2, h3 (by decide) _ (by decide)⟩

/-- C9: for every input DataArray whose trailing dimensions are azimuth and
range (its core dimensions) and whose loop dimensions are neither, the
clutter map returned by extract_clutter has exactly the same dimensions
and sizes as its input, since input_core_dims equals output_core_dims
(both azimuth, range); assigning it as the CMAP variable of the sweep is
therefore dimension-consistent. -/
theorem c9_extract_clutter_dims (rest : List (String × Nat)) (a r : Nat)
    (hrest : ∀ p ∈ rest, p.1 ≠ "azimuth" ∧ p.1 ≠ "range") :
    extract_clutter ⟨rest ++ [("azimuth", a), ("range", r)]⟩
      = ⟨rest ++ [("azimuth", a), ("range", r)]⟩ := by
  unfold extract_clutter applyUfuncShape
  simp only [List.filter_append, List.find?_append]
  have hfilter : rest.filter
      (fun p => !(["azimuth", "range"].contains p.1)) = rest := by
    rw [List.filter_eq_self]
    intro p hp
    rcases hrest p hp with ⟨h1, h2⟩
    simp [h1, h2]
  have hfind1 : rest.find? (fun p => p.1 = "azimuth") = none := by
    rw [List.find?_eq_none]
    intro p hp
    simp [(hrest p hp).1]
  have hfind2 : rest.find? (fun p => p.1 = "range") = none := by
    rw [List.find?_eq_none]
    intro p hp
    simp [(hrest p hp).2]
  simp [hfilter, hfind1, hfind2]
  exact fun a b hab => hrest (a, b) hab

/-- Witness for C9: extract_clutter leaves a concrete azimuth/range sweep
shape unchanged. -/
theorem c9_witness : extract_clutter demoShape = demoShape := by
  have h := c9_extract_clutter_dims [] 360 492 (by simp)
  simpa [demoShape] using h

/-- C10: at every gate, the final quality-index masking retains the
reflectivity value if and only if the gate's CBB is at most 0.5, its CMAP
is below 1.0 and its uncorrected cross-correlation ratio is at least 0.8
(a missing value failing every comparison); a gate failing any of the
three conditions is replaced by a missing value. -/
theorem c10_quality_mask (g : GateValues) (v : Rat) :
    ((qualityMask g).reflectivity_hh_clut = some v ↔
      g.reflectivity_hh_clut = some v
      ∧ (∃ b, g.CBB = some b ∧ b ≤ (0.5 : Rat))
      ∧ (∃ m, g.CMAP = some m ∧ m < (1.0 : Rat))
      ∧ (∃ p, g.uncorrected_cross_correlation_ratio = some p ∧ (0.8 : Rat) ≤ p))
    ∧ ((qualityMask g).reflectivity_hh_clut = none ↔
      (g.reflectivity_hh_clut = none
       ∨ ¬((∃ b, g.CBB = some b ∧ b ≤ (0.5 : Rat))
          ∧ (∃ m, g.CMAP = some m ∧ m < (1.0 : Rat))
          ∧ (∃ p, g.uncorrected_cross_correlation_ratio = some p ∧ (0.8 : Rat) ≤ p)))) := by
  rcases g with ⟨rc, rf, cbb, cmap, rho⟩
  simp only [qualityMask, whereGate, qualityCond, nanLe, nanLt, nanGe]
  rcases cbb with _ | b <;> rcases cmap with _ | m <;> rcases rho with _ | p <;>
    simp [decide_eq_true_eq] <;> split <;> simp_all
